import Mathlib

/-!
Verification development for the pixelcanvas package (src/pixelcanvas.go).

The package is a frame pacer and presenter: on every animation-frame
callback it decides, from the callback timestamp and a stored pacing
interval, whether to run a caller-supplied render step and copy the
pixel buffer of a shadow canvas into a DOM canvas, and then re-arms
itself for the next refresh.

Shallow embedding conventions:
- Go float64 values (timestamps, timeStep) are modelled as rationals; all
  concrete scenarios below stay away from the points where float64 and
  exact arithmetic could disagree.
- js.Value handles are opaque natural-number identifiers; the zero
  js.Value (undefined) is modelled as `none`.
- The browser side is a small explicit host state: a counter of
  animation-frame request identifiers and the at-most-one pending
  registration this program maintains, plus a counter for fresh JS
  buffer identifiers.
- Go channels appear only through the `done` field. Its Go zero value is
  the nil channel; `NewCanvasp` declares `var c Canvasp` and never calls
  make, so `done` is nil in every reachable state. A send on a nil
  channel blocks forever and a send on a closed channel panics; both are
  modelled by `Stop` returning `none` for its second component.
- Side effects on the JS side (buffer allocation, byte copies, blits)
  are recorded as an explicit operation trace of type `List JsOp`.
- The local variable `lastTimestamp` of the goroutine closure in
  `initFrameUpdate` is stored in the `Canvasp` record; `initFrameUpdate`
  resets it to 0, matching the fresh `var lastTimestamp float64`.
-/

namespace PixelCanvas

/-- Pixel bytes of the shadow canvas, the result of image.Pixels(). -/
abbrev Frame := List Nat

/-- RenderFunc from the source: draws on the shadow canvas and reports
whether anything changed.  Modelled as a pure function from the pixel
bytes to new pixel bytes plus the changed flag. -/
abbrev RenderFunc := Frame → Frame × Bool

/-- State of a Go channel handle.  The Go zero value is the nil channel. -/
inductive ChanState where
  | nilChan
  | openChan
  | closedChan
deriving DecidableEq, Repr

/-- A JS-side operation performed by the package, recorded for the
allocation and copy-protocol claims. -/
inductive JsOp where
  | createImageData (w h : Nat)
  | newUint8Array (id size : Nat)
  | copyBytesToJS (dst n : Nat)
  | dataSet (src : Nat)
  | putImageData (x y : Nat)
deriving DecidableEq, Repr

/-- True exactly on the allocation of a JS Uint8Array transfer buffer. -/
def isTransferAlloc : JsOp → Bool
  | JsOp.newUint8Array _ _ => true
  | _ => false

/-- Browser-host state: the animation-frame registration this program
keeps (at most one at a time), a counter producing fresh request
identifiers, and a counter producing fresh JS buffer identifiers. -/
structure Host where
  nextID : Nat
  nextBuf : Nat
  pending : Option Nat
deriving DecidableEq, Repr

/-- Initial host: counters start at 1 and nothing is pending. -/
def host0 : Host := { nextID := 1, nextBuf := 1, pending := none }

/-- js.Global().Call with requestAnimationFrame: registers the callback
under a fresh request identifier and returns that identifier. -/
def requestAnimationFrame (h : Host) : Host × Nat :=
  ({ h with nextID := h.nextID + 1, pending := some h.nextID }, h.nextID)

/-- c.window.Call with cancelAnimationFrame: cancels the pending
registration when the given identifier matches it.  Passing the zero
js.Value (undefined, modelled as `none`) does nothing, as in a browser. -/
def cancelAnimationFrame (h : Host) (id : Option Nat) : Host :=
  match id with
  | none => h
  | some i => if h.pending = some i then { h with pending := none } else h

/-- The Canvasp struct fields the claims depend on (src lines 11 to 32).
DOM handles window, doc, body, ctx and imgData are opaque and carry no
behaviour of their own; they are omitted.  `lastTimestamp` holds the
goroutine-local variable of `initFrameUpdate`. -/
structure Canvasp where
  done : ChanState
  canvas : Nat
  width : Nat
  height : Nat
  image : Frame
  reqID : Option Nat
  timeStep : ℚ
  lastTimestamp : ℚ
  copybuff : Nat
deriving DecidableEq, Repr

/-- NewCanvasp with create = false (src lines 38 to 52): `var c Canvasp`
leaves every field at its Go zero value; in particular `done` is the nil
channel (no make call exists anywhere in the package) and `reqID` is the
zero js.Value. -/
def NewCanvasp : Canvasp :=
  { done := ChanState.nilChan
    canvas := 0
    width := 0
    height := 0
    image := []
    reqID := none
    timeStep := 0
    lastTimestamp := 0
    copybuff := 0 }

/-- Result of `Set`: the new struct, the new host, and the JS operations
performed. -/
structure SetOut where
  c : Canvasp
  h : Host
  ops : List JsOp
deriving DecidableEq, Repr

/-- Set (src lines 69 to 80): binds the canvas handle and dimensions,
creates the ImageData, creates the shadow canvas, and allocates the
single static Uint8Array transfer buffer sized to the length of the
shadow-canvas pixel slice.  The pixelgl library is an external
dependency not under src; a canvas created with pixel.R(0,0,w,h) has a
Pixels() slice of w*h*4 RGBA bytes (spec section 3: Frame Buffer length
= width*height*4), modelled as a zeroed list of that length. -/
def Set (c : Canvasp) (h : Host) (canvas width height : Nat) : SetOut :=
  let image : Frame := List.replicate (width * height * 4) 0
  let bufId := h.nextBuf
  { c := { c with
      canvas := canvas
      height := height
      width := width
      image := image
      copybuff := bufId }
    h := { h with nextBuf := h.nextBuf + 1 }
    ops := [JsOp.createImageData width height,
            JsOp.newUint8Array bufId image.length] }

/-- SetFPS (src lines 99 to 101): stores timeStep = 1000 / maxFPS. -/
def SetFPS (c : Canvasp) (maxFPS : ℚ) : Canvasp :=
  { c with timeStep := 1000 / maxFPS }

/-- imgCopy (src lines 146 to 150): CopyBytesToJS into the static
transfer buffer, set the ImageData bytes from it, then putImageData at
origin (0,0).  Pure trace; no struct field changes. -/
def imgCopy (c : Canvasp) : List JsOp :=
  [JsOp.copyBytesToJS c.copybuff c.image.length,
   JsOp.dataSet c.copybuff,
   JsOp.putImageData 0 0]

/-- Result of one invocation of the renderFrame callback. -/
structure TickOut where
  c : Canvasp
  h : Host
  renderCalled : Bool
  copied : Bool
  ops : List JsOp
deriving DecidableEq, Repr

/-- Body of the renderFrame callback (src lines 120 to 138): if the gap
since lastTimestamp reaches timeStep, run the render function when one
is supplied and copy when it reports a change (copy unconditionally when
none is supplied), then advance lastTimestamp; in every case re-arm with
requestAnimationFrame and capture the request identifier in reqID. -/
def renderFrame (c : Canvasp) (rf : Option RenderFunc) (timestamp : ℚ)
    (h : Host) : TickOut :=
  if c.timeStep ≤ timestamp - c.lastTimestamp then
    match rf with
    | some f =>
        let r := f c.image
        let c1 : Canvasp := { c with image := r.1 }
        let ops := if r.2 then imgCopy c1 else []
        let c2 : Canvasp := { c1 with lastTimestamp := timestamp }
        let p := requestAnimationFrame h
        { c := { c2 with reqID := some p.2 }
          h := p.1
          renderCalled := true
          copied := r.2
          ops := ops }
    | none =>
        let ops := imgCopy c
        let c2 : Canvasp := { c with lastTimestamp := timestamp }
        let p := requestAnimationFrame h
        { c := { c2 with reqID := some p.2 }
          h := p.1
          renderCalled := false
          copied := true
          ops := ops }
  else
    let p := requestAnimationFrame h
    { c := { c with reqID := some p.2 }
      h := p.1
      renderCalled := false
      copied := false
      ops := [] }

/-- A system state: the Go struct plus the browser host. -/
structure Sys where
  c : Canvasp
  h : Host
deriving DecidableEq, Repr

/-- initFrameUpdate (src lines 114 to 143): starts the goroutine whose
fresh local lastTimestamp is 0 and registers the callback for the first
time.  The request identifier returned by this initial registration is
discarded by the source (line 140 ignores the call result), so reqID is
not updated here.  The goroutine then parks on a receive from the nil
done channel, which never completes, so the deferred Release of the
callback never runs. -/
def initFrameUpdate (c : Canvasp) (h : Host) : Sys :=
  let c1 : Canvasp := { c with lastTimestamp := 0 }
  let p := requestAnimationFrame h
  { c := c1, h := p.1 }

/-- Start (src lines 83 to 86): SetFPS then initFrameUpdate.  The render
function is held by the callback closure; in this embedding it is passed
to each renderFrame invocation instead. -/
def Start (c : Canvasp) (maxFPS : ℚ) (h : Host) : Sys :=
  initFrameUpdate (SetFPS c maxFPS) h

/-- Stop (src lines 91 to 95): cancel the registration recorded in
reqID, then send on the done channel, then close it.  The first
component is the host after the cancel call, which always executes.  The
second component is the state in which Stop returns: `none` when the
send never completes (nil channel: blocks forever; closed channel:
panics), in which case the close statement is never reached; `some` for
the hypothetical open channel with a waiting receiver, where the send
succeeds and the channel is then closed. -/
def Stop (c : Canvasp) (h : Host) : Host × Option Canvasp :=
  let h1 := cancelAnimationFrame h c.reqID
  match c.done with
  | ChanState.nilChan => (h1, none)
  | ChanState.openChan => (h1, some { c with done := ChanState.closedChan })
  | ChanState.closedChan => (h1, none)

/-- The host fires the pending callback with the given timestamp: the
registration is consumed and the callback body runs.  Returns `none`
when no registration is pending (nothing can fire). -/
def fireCallback (c : Canvasp) (rf : Option RenderFunc) (timestamp : ℚ)
    (h : Host) : Option TickOut :=
  match h.pending with
  | some _ => some (renderFrame c rf timestamp { h with pending := none })
  | none => none

/-- Run the callback once per timestamp in the list, threading struct and
host, and collect the timestamps at which a copy was performed. -/
def runTicks (rf : Option RenderFunc) : List ℚ → Canvasp → Host →
    Canvasp × Host × List ℚ
  | [], c, h => (c, h, [])
  | t :: ts, c, h =>
      let o := renderFrame c rf t h
      let r := runTicks rf ts o.c o.h
      (r.1, r.2.1, (if o.copied then [t] else []) ++ r.2.2)

/-- Timestamps at which a run over the given tick sequence copied the
frame to the canvas. -/
def copiesAt (rf : Option RenderFunc) (c : Canvasp) (h : Host)
    (ts : List ℚ) : List ℚ :=
  (runTicks rf ts c h).2.2

/-- A render function that always draws and reports a change. -/
def rfAlways : Option RenderFunc := some (fun fr => (fr, true))

/-- A render function that reports no change. -/
def rfNever : RenderFunc := fun fr => (fr, false)

/-- Concrete setup used by the scenario claims: a 4 by 3 canvas. -/
def setup : SetOut := Set NewCanvasp host0 5 4 3

/-- Concrete started system at 60 frames per second. -/
def started : Sys := Start setup.c 60 setup.h

end PixelCanvas

namespace PixelCanvas

/-- Helper: the gated render/copy body of the callback runs (some render
call or copy happens) exactly when the gap since lastTimestamp reaches
timeStep. -/
lemma tick_body_iff (c : Canvasp) (rf : Option RenderFunc) (t : ℚ) (h : Host) :
    ((renderFrame c rf t h).renderCalled || (renderFrame c rf t h).copied) = true ↔
      c.timeStep ≤ t - c.lastTimestamp := by
  by_cases hg : c.timeStep ≤ t - c.lastTimestamp <;>
    cases rf <;> simp [renderFrame, requestAnimationFrame, hg]

/-- Helper: every callback invocation registers exactly one new
animation-frame request and records its identifier in reqID. -/
lemma tick_rearms_once (c : Canvasp) (rf : Option RenderFunc) (t : ℚ) (h : Host) :
    (renderFrame c rf t h).h.pending = some h.nextID
    ∧ (renderFrame c rf t h).h.nextID = h.nextID + 1
    ∧ (renderFrame c rf t h).c.reqID = some h.nextID := by
  by_cases hg : c.timeStep ≤ t - c.lastTimestamp <;>
    cases rf <;> simp [renderFrame, requestAnimationFrame, hg]

/-- C1: on every refresh callback with timestamp t, the render/copy body
executes (a render call or a copy happens) if and only if
t - lastTimestamp is at least timeStep, and the callback re-arms itself
exactly once per invocation: the host ends with exactly one new pending
registration and the request counter advanced by one. -/
theorem renderFrame_gate_iff_rearms_once (c : Canvasp) (rf : Option RenderFunc)
    (t : ℚ) (h : Host) :
    (((renderFrame c rf t h).renderCalled || (renderFrame c rf t h).copied) = true ↔
      c.timeStep ≤ t - c.lastTimestamp)
    ∧ (renderFrame c rf t h).h.pending = some h.nextID
    ∧ (renderFrame c rf t h).h.nextID = h.nextID + 1 :=
  ⟨tick_body_iff c rf t h, (tick_rearms_once c rf t h).1, (tick_rearms_once c rf t h).2.1⟩

/-- C2 counterexample: with maxFPS 60 and an always-true render step, the
tick sequence 0, 8, 17, 33 copies at t = 17 only; the copy list is not
the claimed list with 17 and 33.  The t = 17 copy advances lastTimestamp
to 17, so t = 33 has gap 16, below 1000/60. -/
theorem scenario60_no_copy_at_33 :
    copiesAt rfAlways started.c started.h [0, 8, 17, 33] = [17]
    ∧ copiesAt rfAlways started.c started.h [0, 8, 17, 33] ≠ [17, 33] := by
  have h1 : copiesAt rfAlways started.c started.h [0, 8, 17, 33] = [17] := by
    norm_num [copiesAt, runTicks, renderFrame, imgCopy, requestAnimationFrame,
      started, setup, Start, SetFPS, initFrameUpdate, PixelCanvas.Set,
      NewCanvasp, host0, rfAlways]
  exact ⟨h1, by rw [h1]; simp⟩

/-- C2 amended: with maxFPS 60 and an always-true render step, refresh
callbacks at 0, 8, 17, 33 copy at t = 17 only: t = 0 and t = 8 are
skipped with gaps 0 and 8, and t = 33 is also skipped because its gap
since the t = 17 copy is 16, below 1000/60. -/
theorem scenario60_copies_only_17 :
    copiesAt rfAlways started.c started.h [0, 8, 17, 33] = [17] := by
  norm_num [copiesAt, runTicks, renderFrame, imgCopy, requestAnimationFrame,
    started, setup, Start, SetFPS, initFrameUpdate, PixelCanvas.Set,
    NewCanvasp, host0, rfAlways]

/-- C3 counterexample: Start with maxFPS = -1, a non-positive value,
does not fail in any way: it registers the first refresh callback,
stores the pathological pacing interval -1000, and the first callback at
t = 0 immediately renders and copies.  No ConfigError path exists in the
code. -/
theorem start_nonpositive_fps_no_failure :
    ((-1 : ℚ) ≤ 0)
    ∧ (Start NewCanvasp (-1) host0).h.pending = some 1
    ∧ (Start NewCanvasp (-1) host0).c.timeStep = -1000
    ∧ ((fireCallback (Start NewCanvasp (-1) host0).c rfAlways 0
        (Start NewCanvasp (-1) host0).h).map (fun o => o.copied)) = some true := by
  norm_num [Start, SetFPS, initFrameUpdate, requestAnimationFrame, fireCallback,
    renderFrame, imgCopy, NewCanvasp, host0, rfAlways]

/-- C3 amended: Start performs no validation and signals no error: for
every maxFPS value, including non-positive ones, it stores
timeStep = 1000 / maxFPS, resets the last-frame timestamp, and registers
the first refresh callback. -/
theorem start_no_validation (c : Canvasp) (fps : ℚ) (h : Host) :
    (Start c fps h).c.timeStep = 1000 / fps
    ∧ (Start c fps h).c.lastTimestamp = 0
    ∧ (Start c fps h).h.pending = some h.nextID
    ∧ (Start c fps h).h.nextID = h.nextID + 1 := by
  simp [Start, SetFPS, initFrameUpdate, requestAnimationFrame]

/-- C4 failing run: Start registers the first callback but line 140 of
the source discards its request identifier, leaving reqID at the zero
js.Value; a Stop issued before that callback has fired therefore cancels
nothing (and blocks, see the C8 theorem), the callback is still pending
after Stop, and firing it at t = 100 runs the render step, copies the
frame, and re-arms the loop, contradicting the claim that a callback
fired after Stop has no effect. -/
theorem callback_after_stop_still_copies :
    (Stop started.c started.h).2 = none
    ∧ (Stop started.c started.h).1.pending = some 1
    ∧ ((fireCallback started.c rfAlways 100 (Stop started.c started.h).1).map
        (fun o => (o.renderCalled, o.copied, o.h.pending))) =
      some (true, true, some 2) := by
  norm_num [Stop, fireCallback, cancelAnimationFrame, renderFrame, imgCopy,
    requestAnimationFrame, started, setup, Start, SetFPS, initFrameUpdate,
    PixelCanvas.Set, NewCanvasp, host0, rfAlways]

/-- C5: whenever the FPS gate passes at timestamp t, lastTimestamp
advances to t regardless of the render-step outcome; in particular a
render step reporting no change yields no copy and no JS operations at
t, while the next gate will compare against t. -/
theorem gate_pass_updates_lastTimestamp (c : Canvasp) (rf : Option RenderFunc)
    (t : ℚ) (h : Host) (hg : c.timeStep ≤ t - c.lastTimestamp) :
    (renderFrame c rf t h).c.lastTimestamp = t
    ∧ (∀ f, rf = some f → (f c.image).2 = false →
        (renderFrame c rf t h).copied = false ∧ (renderFrame c rf t h).ops = []) := by
  cases rf with
  | none =>
      refine ⟨by simp [renderFrame, requestAnimationFrame, hg], ?_⟩
      intro f hf
      exact absurd hf (by simp)
  | some f =>
      refine ⟨by simp [renderFrame, requestAnimationFrame, hg], ?_⟩
      intro g hgf hfalse
      obtain rfl : f = g := by injection hgf
      constructor <;> simp [renderFrame, requestAnimationFrame, hg, hfalse]

/-- C5 witness: at 60 FPS from a fresh state, the gate passes at t = 17
with a render step reporting no change: lastTimestamp advances to 17 and
no copy happens. -/
theorem gate_pass_updates_lastTimestamp_witness :
    ((SetFPS NewCanvasp 60).timeStep ≤ 17 - (SetFPS NewCanvasp 60).lastTimestamp)
    ∧ (renderFrame (SetFPS NewCanvasp 60) (some rfNever) 17 host0).c.lastTimestamp = 17
    ∧ (renderFrame (SetFPS NewCanvasp 60) (some rfNever) 17 host0).copied = false := by
  have hg : (SetFPS NewCanvasp 60).timeStep ≤ 17 - (SetFPS NewCanvasp 60).lastTimestamp := by
    norm_num [SetFPS, NewCanvasp]
  have H := gate_pass_updates_lastTimestamp (SetFPS NewCanvasp 60) (some rfNever) 17 host0 hg
  exact ⟨hg, H.1, (H.2 rfNever rfl (by simp [rfNever])).1⟩

/-- C6: for positive maxFPS, both SetFPS and Start store exactly
1000 / maxFPS as the pacing interval. -/
theorem setFPS_timeStep_exact (c : Canvasp) (h : Host) (fps : ℚ) (hpos : 0 < fps) :
    (SetFPS c fps).timeStep = 1000 / fps
    ∧ (Start c fps h).c.timeStep = 1000 / fps := by
  simp [SetFPS, Start, initFrameUpdate]

/-- C6 witness: instantiated at maxFPS = 60. -/
theorem setFPS_timeStep_exact_witness :
    (0 : ℚ) < 60 ∧ (SetFPS NewCanvasp 60).timeStep = 1000 / 60 :=
  ⟨by norm_num, (setFPS_timeStep_exact NewCanvasp host0 60 (by norm_num)).1⟩

/-- C7: Set allocates exactly one Uint8Array transfer buffer, sized to
the frame-buffer byte length width * height * 4, and it becomes the
stored copybuff; imgCopy is exactly the protocol bytes to transfer
buffer, transfer buffer to ImageData, blit at origin; and every callback
invocation preserves copybuff and performs either no JS operations or
exactly one such copy through the same stored buffer, allocating
nothing. -/
theorem single_transfer_buffer_reused (c : Canvasp) (h : Host) (cv w ht : Nat) :
    ((PixelCanvas.Set c h cv w ht).ops.filter isTransferAlloc =
      [JsOp.newUint8Array (PixelCanvas.Set c h cv w ht).c.copybuff (w * ht * 4)])
    ∧ (∀ c2 : Canvasp, imgCopy c2 =
        [JsOp.copyBytesToJS c2.copybuff c2.image.length,
         JsOp.dataSet c2.copybuff, JsOp.putImageData 0 0])
    ∧ (∀ (c2 : Canvasp) (rf : Option RenderFunc) (t : ℚ) (h2 : Host),
        (renderFrame c2 rf t h2).c.copybuff = c2.copybuff
        ∧ ((renderFrame c2 rf t h2).ops = []
           ∨ ∃ n, (renderFrame c2 rf t h2).ops =
              [JsOp.copyBytesToJS c2.copybuff n,
               JsOp.dataSet c2.copybuff, JsOp.putImageData 0 0])) := by
  refine ⟨by simp [PixelCanvas.Set, isTransferAlloc], fun c2 => rfl, ?_⟩
  intro c2 rf t h2
  by_cases hg : c2.timeStep ≤ t - c2.lastTimestamp
  · cases rf with
    | none =>
        refine ⟨by simp [renderFrame, requestAnimationFrame, hg], Or.inr ?_⟩
        exact ⟨c2.image.length, by simp [renderFrame, requestAnimationFrame, imgCopy, hg]⟩
    | some f =>
        refine ⟨by simp [renderFrame, requestAnimationFrame, hg], ?_⟩
        by_cases hch : (f c2.image).2
        · exact Or.inr ⟨(f c2.image).1.length,
            by simp [renderFrame, requestAnimationFrame, imgCopy, hg, hch]⟩
        · exact Or.inl (by simp [renderFrame, requestAnimationFrame, hg, hch])
  · cases rf <;>
      exact ⟨by simp [renderFrame, requestAnimationFrame, hg],
        Or.inl (by simp [renderFrame, requestAnimationFrame, hg])⟩

/-- C8 failing run: the done channel is the nil channel in every
reachable state (no make call exists), so Stop blocks forever on the
channel send and never returns, whether called right after Start or
after a callback has run; the close statement is unreachable and the
channel is never closed.  The cancelAnimationFrame call before the send
does succeed once a callback has recorded its request identifier. -/
theorem stop_never_returns_channel_never_closed :
    NewCanvasp.done = ChanState.nilChan
    ∧ (Stop started.c started.h).2 = none
    ∧ (Stop (renderFrame started.c rfAlways 20 started.h).c
        (renderFrame started.c rfAlways 20 started.h).h).2 = none
    ∧ (Stop (renderFrame started.c rfAlways 20 started.h).c
        (renderFrame started.c rfAlways 20 started.h).h).1.pending = none := by
  norm_num [Stop, cancelAnimationFrame, renderFrame, imgCopy, requestAnimationFrame,
    started, setup, Start, SetFPS, initFrameUpdate, PixelCanvas.Set,
    NewCanvasp, host0, rfAlways]

/-- C9: SetFPS is idempotent: applying it twice with the same value is
the same state as applying it once, and a single application changes
nothing but the timeStep field. -/
theorem setFPS_idempotent (c : Canvasp) (v : ℚ) :
    SetFPS (SetFPS c v) v = SetFPS c v
    ∧ SetFPS c v = { c with timeStep := 1000 / v } :=
  ⟨rfl, rfl⟩

/-- C10: after Start the last-frame timestamp is 0, so for positive
maxFPS the first callback runs its render/copy body exactly when its
timestamp reaches 1000 / maxFPS; a first callback at timestamp 0
performs no render call and no copy. -/
theorem first_tick_after_start (c : Canvasp) (h : Host) (fps : ℚ)
    (rf : Option RenderFunc) (t : ℚ) (hpos : 0 < fps) :
    (Start c fps h).c.lastTimestamp = 0
    ∧ (((renderFrame (Start c fps h).c rf t (Start c fps h).h).renderCalled
        || (renderFrame (Start c fps h).c rf t (Start c fps h).h).copied) = true
       ↔ 1000 / fps ≤ t)
    ∧ (renderFrame (Start c fps h).c rf 0 (Start c fps h).h).renderCalled = false
    ∧ (renderFrame (Start c fps h).c rf 0 (Start c fps h).h).copied = false := by
  have ht : (Start c fps h).c.timeStep = 1000 / fps := by
    simp [Start, SetFPS, initFrameUpdate]
  have hl : (Start c fps h).c.lastTimestamp = 0 := by
    simp [Start, SetFPS, initFrameUpdate]
  have hiff := tick_body_iff (Start c fps h).c rf t (Start c fps h).h
  rw [ht, hl, sub_zero] at hiff
  have hneg : ¬ (Start c fps h).c.timeStep ≤ 0 - (Start c fps h).c.lastTimestamp := by
    rw [ht, hl, sub_zero]
    exact not_le.mpr (div_pos (by norm_num) hpos)
  have hzero := tick_body_iff (Start c fps h).c rf 0 (Start c fps h).h
  have hz : ((renderFrame (Start c fps h).c rf 0 (Start c fps h).h).renderCalled
      || (renderFrame (Start c fps h).c rf 0 (Start c fps h).h).copied) = false := by
    rcases Bool.eq_false_or_eq_true ((renderFrame (Start c fps h).c rf 0
      (Start c fps h).h).renderCalled || (renderFrame (Start c fps h).c rf 0
      (Start c fps h).h).copied) with hb | hb
    · exact absurd (hzero.mp hb) hneg
    · exact hb
  refine ⟨hl, hiff, ?_, ?_⟩
  · exact (Bool.or_eq_false_iff.mp hz).1
  · exact (Bool.or_eq_false_iff.mp hz).2

/-- C10 witness: at maxFPS = 60 a first callback at timestamp 0 performs
no copy. -/
theorem first_tick_after_start_witness :
    (0 : ℚ) < 60
    ∧ (renderFrame (Start NewCanvasp 60 host0).c rfAlways 0
        (Start NewCanvasp 60 host0).h).copied = false :=
  ⟨by norm_num, (first_tick_after_start NewCanvasp host0 60 rfAlways 0 (by norm_num)).2.2.2⟩

end PixelCanvas
